import Mathlib

/-!
# Verification of the ezdxf low-level tag model and upright transform

Shallow embedding of `src/ezdxf/lldxf/types.py` (tag type registry and the
scalar/vertex tag model) and `src/src/ezdxf/upright.py` (the upright
normalization pass), with theorems settling the specification claims.

Python integers are modelled as `Int`, Python floats as `ℚ` restricted to the
exact decimal values the claims use, Python strings as `String`.  Fallible
Python operations (casts that can raise `ValueError`/`TypeError`) return
`Option`.
-/

namespace Ezdxf

/-! ## Tag type registry (`src/ezdxf/lldxf/types.py`) -/

/-- The decoder kinds appearing in `TYPE_TABLE`: the builtins `float` and
`int`, the module function `point_tuple`, and the fallback text decoder
`ustr` (Python 3 `str`). -/
inductive CasterKind where
  | ustr
  | pyint
  | pyfloat
  | point_tuple
  deriving DecidableEq, Repr

/-- `range(a, b)` as a list of `Int` codes. -/
def rng (a b : Nat) : List Int :=
  (List.range (b - a)).map fun i => (a : Int) + i

/-- One pass of the dict-assignment loop in `_build_type_table`:
`for code in codes: table[code] = caster` overwrites previous entries. -/
def typeTableStep (table : Int → Option CasterKind)
    (rule : CasterKind × List Int) : Int → Option CasterKind :=
  fun code => if code ∈ rule.2 then some rule.1 else table code

/-- `_build_type_table(types)`: builds the code → caster dict by iterating the
rules in order; a later assignment to the same code wins, exactly like the
Python dict store `table[code] = caster`. -/
def _build_type_table (types : List (CasterKind × List Int)) :
    Int → Option CasterKind :=
  types.foldl typeTableStep (fun _ => none)

/-- The literal rule list passed to `_build_type_table` to make `TYPE_TABLE`. -/
def TYPE_TABLE_RULES : List (CasterKind × List Int) := [
  (.point_tuple, rng 10 20),
  (.pyfloat, rng 20 60),
  (.pyint, rng 60 100),
  (.point_tuple, rng 110 113),
  (.pyfloat, rng 113 150),
  (.pyint, rng 160 170),
  (.pyint, rng 170 180),
  (.point_tuple, [210]),
  (.pyfloat, rng 211 240),
  (.pyint, rng 270 290),
  (.pyint, rng 290 300),
  (.pyint, rng 370 390),
  (.pyint, rng 400 410),
  (.pyint, rng 420 430),
  (.pyint, rng 440 460),
  (.pyfloat, rng 460 470),
  (.point_tuple, rng 1010 1020),
  (.pyfloat, rng 1020 1060),
  (.pyint, rng 1060 1072)]

/-- `TYPE_TABLE = _build_type_table([...])`. -/
def TYPE_TABLE : Int → Option CasterKind :=
  _build_type_table TYPE_TABLE_RULES

/-- `tag_type(code)`: `TYPE_TABLE.get(code, ustr)`. -/
def tag_type (code : Int) : CasterKind :=
  (TYPE_TABLE code).getD .ustr

/-- `POINT_CODES` frozenset literal. -/
def POINT_CODES : List Int := [
  10, 11, 12, 13, 14, 15, 16, 17, 18, 19,
  110, 111, 112, 210,
  1010, 1011, 1012, 1013, 1014, 1015, 1016, 1017, 1018, 1019]

/-- `POINTER_CODES = frozenset(chain(range(320, 370), range(390, 400), (480, 481, 1005)))`. -/
def POINTER_CODES : List Int :=
  rng 320 370 ++ rng 390 400 ++ [480, 481, 1005]

/-- `is_pointer_code(code)`: membership in `POINTER_CODES`. -/
def is_pointer_code (code : Int) : Bool :=
  decide (code ∈ POINTER_CODES)

/-- `is_point_code(code)`: membership in `POINT_CODES`. -/
def is_point_code (code : Int) : Bool :=
  decide (code ∈ POINT_CODES)

/-! ## Python values and the decoders

Raw tag values are Python objects; the decoders in `TYPE_TABLE` are the
builtins `float` and `int`, the module function `point_tuple`, and `ustr`
(= `str`).  Floats are modelled as `ℚ` (exact decimals), conversion failures
(`ValueError`/`TypeError`) as `none`. -/

/-- A Python value as it appears in the tag stream: a string, an int, a
float, or a tuple of floats. -/
inductive PyVal where
  | vstr (s : String)
  | vint (n : Int)
  | vfloat (q : ℚ)
  | vtuple (qs : List ℚ)
  deriving DecidableEq, Repr

/-- Decimal digit test. -/
def isDigitChar (c : Char) : Bool :=
  '0' ≤ c && c ≤ '9'

/-- Value of a list of decimal digit characters. -/
def digitsToNat (ds : List Char) : Nat :=
  ds.foldl (fun acc c => acc * 10 + (c.toNat - 48)) 0

/-- Unsigned part of a Python float literal: `digits`, `digits.`, `.digits`
or `digits.digits` (the exponent/`inf`/`nan`/whitespace forms Python also
accepts are outside the model; no claim exercises them). -/
def parseUnsignedFloat (cs : List Char) : Option ℚ :=
  let ip := cs.takeWhile isDigitChar
  let rest := cs.dropWhile isDigitChar
  match rest with
  | [] => if ip.isEmpty then none else some (mkRat (digitsToNat ip) 1)
  | '.' :: fp =>
      if fp.all isDigitChar && (!ip.isEmpty || !fp.isEmpty) then
        some (mkRat (digitsToNat ip * 10 ^ fp.length + digitsToNat fp) (10 ^ fp.length))
      else none
  | _ => none

/-- Modelled from the spec: the Python builtin `float(str)` (external to the
module), raising `ValueError` on a non-numeric string. -/
def parseFloatStr (s : String) : Option ℚ :=
  match s.data with
  | '+' :: rest => parseUnsignedFloat rest
  | '-' :: rest => (parseUnsignedFloat rest).map fun q => -q
  | cs => parseUnsignedFloat cs

/-- Nonempty all-digit string to `Int`. -/
def parseIntDigits (cs : List Char) : Option Int :=
  if cs.isEmpty then none
  else if cs.all isDigitChar then some (digitsToNat cs : Int) else none

/-- Modelled from the spec: the Python builtin `int(str)` (external to the
module), accepting only an optionally signed integer literal. -/
def parseIntStr (s : String) : Option Int :=
  match s.data with
  | '+' :: rest => parseIntDigits rest
  | '-' :: rest => (parseIntDigits rest).map fun n => -n
  | cs => parseIntDigits cs

/-- Left-pad with zeros to length `n`. -/
def padZeros (s : String) (n : Nat) : String :=
  String.mk (List.replicate (n - s.length) '0') ++ s

/-- Modelled from the spec: Python `str(float)` (external), for floats whose
value is an exact decimal — the integral case renders as `digits.0`, the
fractional case as the shortest exact decimal expansion.  (Binary doubles
without a short decimal form print their shortest round-trip repr in Python;
the claims only use exact short decimals.) -/
def formatFloat (q : ℚ) : String :=
  let sign := if q.num < 0 then "-" else ""
  let n : Nat := q.num.natAbs
  let d : Nat := q.den
  if d == 1 then sign ++ toString n ++ ".0"
  else
    match (List.range 17).find? (fun j => 10 ^ (j + 1) % d == 0) with
    | some j =>
        let k := j + 1
        let m := n * (10 ^ k / d)
        sign ++ toString (m / 10 ^ k) ++ "." ++ padZeros (toString (m % 10 ^ k)) k
    | none => sign ++ toString n ++ "/" ++ toString d

/-- Modelled from the spec: Python `str(value)` / `ustr(value)` (from the
external `tools.c23` module): identity on strings, decimal rendering of
numbers, parenthesized comma-separated rendering of tuples.  Total: the text
decoder never fails. -/
def pyStr : PyVal → String
  | .vstr s => s
  | .vint n => toString n
  | .vfloat q => formatFloat q
  | .vtuple qs =>
      if qs.length == 1 then "(" ++ formatFloat (qs.getD 0 0) ++ ",)"
      else "(" ++ String.intercalate ", " (qs.map formatFloat) ++ ")"

/-- Python `int(float)` truncates toward zero. -/
def truncQ (q : ℚ) : Int :=
  let m : Nat := q.num.natAbs / q.den
  if q.num < 0 then -(m : Int) else (m : Int)

/-- Modelled from the spec: the Python builtin `float(value)` on a tag value;
fails (`TypeError`/`ValueError`) on tuples and non-numeric strings. -/
def pyFloatCast : PyVal → Option ℚ
  | .vfloat q => some q
  | .vint n => some (mkRat n 1)
  | .vstr s => parseFloatStr s
  | .vtuple _ => none

/-- Modelled from the spec: the Python builtin `int(value)` on a tag value. -/
def pyIntCast : PyVal → Option Int
  | .vint n => some n
  | .vfloat q => some (truncQ q)
  | .vstr s => parseIntStr s
  | .vtuple _ => none

/-- `point_tuple(value)`: `tuple(float(f) for f in value)` — iterates the
value and converts each element to float; iterating a string yields its
characters, a number is not iterable (`TypeError`). -/
def point_tuple : PyVal → Option (List ℚ)
  | .vtuple qs => some qs
  | .vstr s => s.data.mapM fun ch => parseFloatStr (String.mk [ch])
  | _ => none

/-- Application of a decoder from `TYPE_TABLE` to a raw value. -/
def applyCaster : CasterKind → PyVal → Option PyVal
  | .ustr, v => some (.vstr (pyStr v))
  | .pyint, v => (pyIntCast v).map .vint
  | .pyfloat, v => (pyFloatCast v).map .vfloat
  | .point_tuple, v => (point_tuple v).map .vtuple

/-- `cast_tag_value(code, value)`: `types.get(code, ustr)(value)` with the
default `types=TYPE_TABLE`. -/
def cast_tag_value (code : Int) (value : PyVal) : Option PyVal :=
  applyCaster ((TYPE_TABLE code).getD .ustr) value

/-! ## Tagged value model (`DXFTag`, `DXFVertex`) -/

/-- Python `"%3d"` formatting: the decimal representation right-aligned in a
minimum field width of 3, space-padded, never truncated. -/
def fmtInt3 (n : Int) : String :=
  let s := toString n
  String.mk (List.replicate (3 - s.length) ' ') ++ s

/-- `TAG_STRING_FORMAT % (code, value)` = `"%3d\n%s\n" % (code, value)`,
with the value already rendered by `str`. -/
def tagRecord (code : Int) (value : String) : String :=
  fmtInt3 code ++ "\n" ++ value ++ "\n"

/-- `DXFTag`: immutable scalar tag `(code, value)`. -/
structure DXFTag where
  code : Int
  _value : PyVal
  deriving DecidableEq, Repr

/-- The `value` property returns the stored value. -/
def DXFTag.value (t : DXFTag) : PyVal :=
  t._value

/-- `DXFTag.dxfstr`: `TAG_STRING_FORMAT % (self.code, self._value)`. -/
def DXFTag.dxfstr (t : DXFTag) : String :=
  tagRecord t.code (pyStr t._value)

/-- `DXFTag.clone`. -/
def DXFTag.clone (t : DXFTag) : DXFTag :=
  ⟨t.code, t._value⟩

/-- `DXFVertex`: point tag holding its components in an `array('d', value)`
buffer, modelled as the list of component values. -/
structure DXFVertex where
  code : Int
  _value : List ℚ
  deriving DecidableEq, Repr

/-- The `value` property materializes the buffer as a tuple of floats. -/
def DXFVertex.value (v : DXFVertex) : List ℚ :=
  v._value

/-- `DXFVertex.dxftags`: `zip((c, c+10, c+20), self.value)` — one `(code,
component)` pair per present component, at codes `c`, `c+10`, `c+20`. -/
def DXFVertex.dxftags (v : DXFVertex) : List (Int × ℚ) :=
  List.zip [v.code, v.code + 10, v.code + 20] v.value

/-- `DXFVertex.dxfstr`: `''.join(TAG_STRING_FORMAT % tag for tag in
self.dxftags())`. -/
def DXFVertex.dxfstr (v : DXFVertex) : String :=
  String.join (v.dxftags.map fun t => tagRecord t.1 (formatFloat t.2))

/-! ## Upright transform (`src/src/ezdxf/upright.py`) -/

/-- A 3D vector with exact rational coordinates (the external `Vec3`). -/
structure Vec3 where
  x : ℚ
  y : ℚ
  z : ℚ
  deriving DecidableEq, Repr

/-- Modelled from the spec: the external guard test
`Vec3(extrusion).normalize().isclose(FLIPPED_Z_AXIS)` — the normalized
extrusion is the flipped canonical axis `(0, 0, -1)` exactly when the vector
has zero x and y components and a negative z component.  (The external
`normalize`/`isclose` primitives come from `ezdxf.math`, outside `src/`; the
floating-point tolerance of `isclose` is modelled as exact comparison.) -/
def normalizesToFlippedZ (v : Vec3) : Bool :=
  v.x == 0 && v.y == 0 && decide (v.z < 0)

/-- The entity attribute namespace (`entity.dxf`, the external
`DXFNamespace`), restricted to the attributes the upright transform touches.
Attributes the source accesses only under a `hasattr` guard, or discards,
are `Option`s; attributes it reads unconditionally are plain fields. -/
structure DXFNamespace where
  extrusion : Option Vec3
  center : Vec3
  thickness : Option ℚ
  start_angle : ℚ
  end_angle : ℚ
  start_param : ℚ
  end_param : ℚ
  vtx0 : Option Vec3
  vtx1 : Option Vec3
  vtx2 : Option Vec3
  vtx3 : Option Vec3
  deriving DecidableEq, Repr

/-- A resolved DXF entity as `upright` sees it: its `dxftype()` string,
`is_alive`, whether it is a `DXFGraphic` instance, and its attribute
namespace. -/
structure DXFEntity where
  dxftype : String
  is_alive : Bool
  graphical : Bool
  dxf : DXFNamespace
  deriving DecidableEq, Repr

/-- `_flip_deg_angle(angle)`: `(180.0 if angle >= 0.0 else -180.0) - angle`. -/
def _flip_deg_angle (angle : ℚ) : ℚ :=
  (if 0 ≤ angle then mkRat 180 1 else mkRat (-180) 1) - angle

/-- `_flip_thickness(dxf)`: negate `thickness` if the attribute is present. -/
def _flip_thickness (dxf : DXFNamespace) : DXFNamespace :=
  { dxf with thickness := dxf.thickness.map fun t => -t }

/-- `_flip_circle(dxf)`, parametric in the external conversion
`_flip_vertex = FLIPPED_OCS.to_wcs` (called `flip` here). -/
def _flip_circle (flip : Vec3 → Vec3) (dxf : DXFNamespace) : DXFNamespace :=
  let d := { dxf with center := flip dxf.center }
  let d := _flip_thickness d
  { d with extrusion := none }

/-- `_flip_arc(dxf)`: `_flip_circle`, then swap-and-reflect the angle pair
(the old `end_angle` is saved before being overwritten). -/
def _flip_arc (flip : Vec3 → Vec3) (dxf : DXFNamespace) : DXFNamespace :=
  let d := _flip_circle flip dxf
  let end_angle := d.end_angle
  let d := { d with end_angle := _flip_deg_angle d.start_angle }
  { d with start_angle := _flip_deg_angle end_angle }

/-- `_flip_solid(dxf)`: `_flip_existing_vertex` over the fixed name list
`const.VERTEXNAMES` (modelled from the spec: the list `("vtx0", "vtx1",
"vtx2", "vtx3")` lives in the external `lldxf.const` module), then flip
thickness and discard the extrusion attribute. -/
def _flip_solid (flip : Vec3 → Vec3) (dxf : DXFNamespace) : DXFNamespace :=
  let d := { dxf with
    vtx0 := dxf.vtx0.map flip, vtx1 := dxf.vtx1.map flip,
    vtx2 := dxf.vtx2.map flip, vtx3 := dxf.vtx3.map flip }
  let d := _flip_thickness d
  { d with extrusion := none }

/-- `_flip_ellipse(dxf)`: negate-and-swap the start/end parameter pair and
discard the extrusion attribute; nothing else is touched. -/
def _flip_ellipse (_flip : Vec3 → Vec3) (dxf : DXFNamespace) : DXFNamespace :=
  let end_param := -dxf.end_param
  let d := { dxf with end_param := -dxf.start_param }
  let d := { d with start_param := end_param }
  { d with extrusion := none }

/-- `SIMPLE_UPRIGHT_TOOLS`: dxftype → simple per-attribute rewrite tool. -/
def SIMPLE_UPRIGHT_TOOLS (dxftype : String) :
    Option ((Vec3 → Vec3) → DXFNamespace → DXFNamespace) :=
  if dxftype == "CIRCLE" then some _flip_circle
  else if dxftype == "ARC" then some _flip_arc
  else if dxftype == "SOLID" then some _flip_solid
  else if dxftype == "TRACE" then some _flip_solid
  else if dxftype == "ELLIPSE" then some _flip_ellipse
  else none

/-- `_flip_complex_entity(entity)`: the placeholder tool — its body is
`pass`, so the entity is returned unchanged. -/
def _flip_complex_entity (entity : DXFEntity) : DXFEntity :=
  entity

/-- `COMPLEX_UPRIGHT_TOOLS`: dict whose entries may be `None` (`"POLYLINE":
None` etc.); a `None` entry is present in the dict but falsy, so `upright`
skips it. -/
def COMPLEX_UPRIGHT_TOOLS (dxftype : String) :
    Option (Option (DXFEntity → DXFEntity)) :=
  if dxftype == "LWPOLYLINE" then some (some _flip_complex_entity)
  else if dxftype == "POLYLINE" then some none
  else if dxftype == "HATCH" then some none
  else if dxftype == "MPOLYGON" then some none
  else if dxftype == "INSERT" then some none
  else none

/-- `upright(entity)`, parametric in the external flipped-OCS-to-WCS
conversion `flip`: guard (graphical, alive, has extrusion), detect
(normalized extrusion is the flipped axis), then dispatch to a simple tool,
a truthy complex tool, or nothing. -/
def upright (flip : Vec3 → Vec3) (entity : DXFEntity) : DXFEntity :=
  if !(entity.graphical && entity.is_alive && entity.dxf.extrusion.isSome) then
    entity
  else
    match entity.dxf.extrusion with
    | none => entity
    | some ext =>
      if !normalizesToFlippedZ ext then entity
      else
        match SIMPLE_UPRIGHT_TOOLS entity.dxftype with
        | some tool => { entity with dxf := tool flip entity.dxf }
        | none =>
          match COMPLEX_UPRIGHT_TOOLS entity.dxftype with
          | some (some tool) => tool entity
          | _ => entity

/-- `upright_all(entities)`: independent application to each entity. -/
def upright_all (flip : Vec3 → Vec3) (entities : List DXFEntity) : List DXFEntity :=
  entities.map (upright flip)

/-! ## Theorems -/

/-- A code contained in no rule of the list is left to the initial table. -/
theorem foldl_typeTableStep_not_mem (rules : List (CasterKind × List Int))
    (f : Int → Option CasterKind) (c : Int) (h : ∀ r ∈ rules, c ∉ r.2) :
    rules.foldl typeTableStep f c = f c := by
  induction rules generalizing f with
  | nil => rfl
  | cons r rs ih =>
      rw [List.foldl_cons, ih _ fun r hr => h r (List.mem_cons_of_mem _ hr)]
      simp [typeTableStep, h r (List.mem_cons_self _ _)]

/-- Dict semantics of `_build_type_table`: the last rule containing a code
decides its caster. -/
theorem build_type_table_last_wins (pre post : List (CasterKind × List Int))
    (rule : CasterKind × List Int) (c : Int) (hc : c ∈ rule.2)
    (hpost : ∀ r ∈ post, c ∉ r.2) :
    _build_type_table (pre ++ rule :: post) c = some rule.1 := by
  unfold _build_type_table
  rw [List.foldl_append, List.foldl_cons,
    foldl_typeTableStep_not_mem post _ c hpost]
  simp [typeTableStep, hc]

/-- Claim C1: for every code contained in a declared range of the registered
rule list, the classification used by `tag_type` / `cast_tag_value` returns
the decoder assigned to that range; every code contained in no declared
range gets the text decoder; and on overlap the decoder of the last rule
containing the code (in registration order) wins. -/
theorem tag_type_dispatch :
    (∀ r ∈ TYPE_TABLE_RULES, ∀ c ∈ r.2, tag_type c = r.1)
  ∧ (∀ c : Int, (∀ r ∈ TYPE_TABLE_RULES, c ∉ r.2) → tag_type c = CasterKind.ustr)
  ∧ (∀ (rules pre post : List (CasterKind × List Int))
       (rule : CasterKind × List Int) (c : Int),
       rules = pre ++ rule :: post → c ∈ rule.2 → (∀ r ∈ post, c ∉ r.2) →
       ((_build_type_table rules c).getD CasterKind.ustr) = rule.1) := by
  refine ⟨by decide, ?_, ?_⟩
  · intro c h
    unfold tag_type TYPE_TABLE _build_type_table
    rw [foldl_typeTableStep_not_mem _ _ _ h]
    rfl
  · rintro rules pre post rule c rfl hc hpost
    rw [build_type_table_last_wins pre post rule c hc hpost]
    rfl

/-- Witness for C1: code 5 sits in no declared range and classifies as text,
and in a redefined rule list where a later rule overlaps an earlier one at
code 5, the later rule wins. -/
theorem tag_type_dispatch_witness :
    tag_type 5 = CasterKind.ustr
  ∧ ((_build_type_table [(CasterKind.pyint, [5]), (CasterKind.ustr, [5])] 5).getD
      CasterKind.ustr) = CasterKind.ustr :=
  ⟨tag_type_dispatch.2.1 5 (by decide),
   tag_type_dispatch.2.2 [(CasterKind.pyint, [5]), (CasterKind.ustr, [5])]
     [(CasterKind.pyint, [5])] [] (CasterKind.ustr, [5]) 5 rfl (by decide) (by decide)⟩

/-- Counterexample to C3 as stated: decoding can raise — code 20 selects the
float decoder and `float("abc")` raises `ValueError`, modelled as `none`. -/
theorem cast_tag_value_can_fail :
    cast_tag_value 20 (PyVal.vstr "abc") = none := by decide

/-- Claim C3 (amended): the range-rule lookup never fails — any code outside
every declared range falls back to the text decoder, which succeeds on every
value — but decoding itself can raise when the selected decoder cannot
convert the raw value. -/
theorem cast_tag_value_text_fallback :
    ∀ (code : Int) (v : PyVal), (∀ r ∈ TYPE_TABLE_RULES, code ∉ r.2) →
      cast_tag_value code v = some (PyVal.vstr (pyStr v)) := by
  intro code v h
  unfold cast_tag_value TYPE_TABLE _build_type_table
  rw [foldl_typeTableStep_not_mem _ _ _ h]
  rfl

/-- Witness for C3 (amended): code 7 has no rule, so any value — here a
non-numeric string — decodes as text without failing. -/
theorem cast_tag_value_text_fallback_witness :
    cast_tag_value 7 (PyVal.vstr "xyz") = some (PyVal.vstr (pyStr (PyVal.vstr "xyz"))) :=
  cast_tag_value_text_fallback 7 (PyVal.vstr "xyz") (by decide)

/-- Claim C8: `is_point_code` is true exactly on the base codes 10–19, 110,
111, 112, 210 and 1010–1019 (so false on companion code 20), and
`is_pointer_code` is true at 390 and false at 10. -/
theorem point_and_pointer_codes :
    (∀ c : Int, is_point_code c = true ↔
      ((10 ≤ c ∧ c ≤ 19) ∨ c = 110 ∨ c = 111 ∨ c = 112 ∨ c = 210 ∨
        (1010 ≤ c ∧ c ≤ 1019)))
  ∧ is_point_code 20 = false
  ∧ is_pointer_code 390 = true
  ∧ is_pointer_code 10 = false := by
  refine ⟨?_, by decide, by decide, by decide⟩
  intro c
  simp only [is_point_code, POINT_CODES, decide_eq_true_eq, List.mem_cons,
    List.mem_singleton, List.not_mem_nil, or_false]
  omega

/-- Number of newline characters in a string. -/
def countNL (s : String) : Nat :=
  s.data.count '\n'

/-- No digit character is a newline. -/
theorem digitChar_ne_newline (n : Nat) : Nat.digitChar n ≠ '\n' :=
  match n with
  | 0 => by decide
  | 1 => by decide
  | 2 => by decide
  | 3 => by decide
  | 4 => by decide
  | 5 => by decide
  | 6 => by decide
  | 7 => by decide
  | 8 => by decide
  | 9 => by decide
  | 10 => by decide
  | 11 => by decide
  | 12 => by decide
  | 13 => by decide
  | 14 => by decide
  | 15 => by decide
  | n + 16 => by show ('*' : Char) ≠ '\n'; decide

/-- `Nat.toDigitsCore` never introduces a newline. -/
theorem toDigitsCore_ne_newline :
    ∀ (fuel n : Nat) (ds : List Char), (∀ c ∈ ds, c ≠ '\n') →
      ∀ c ∈ Nat.toDigitsCore 10 fuel n ds, c ≠ '\n' := by
  intro fuel
  induction fuel with
  | zero => intro n ds h c hc; exact h c hc
  | succ fuel ih =>
      intro n ds h c hc
      simp only [Nat.toDigitsCore] at hc
      have hcons : ∀ x ∈ Nat.digitChar (n % 10) :: ds, x ≠ '\n' := by
        intro x hx
        rcases List.mem_cons.mp hx with h1 | h2
        · subst h1; exact digitChar_ne_newline _
        · exact h x h2
      split at hc
      · exact hcons c hc
      · exact ih (n / 10) _ hcons c hc

/-- The decimal representation of a natural number has no newline. -/
theorem natRepr_ne_newline (n : Nat) : ∀ c ∈ (Nat.repr n).data, c ≠ '\n' :=
  fun c hc => toDigitsCore_ne_newline (n + 1) n [] (by simp) c hc

/-- The decimal representation of an integer has no newline. -/
theorem intToString_ne_newline (n : Int) : ∀ c ∈ (toString n).data, c ≠ '\n' := by
  cases n with
  | ofNat m => exact natRepr_ne_newline m
  | negSucc m =>
      intro c hc
      rcases List.mem_cons.mp hc with h1 | h2
      · subst h1; decide
      · exact natRepr_ne_newline _ c h2

/-- Claim C9: a scalar tag serializes as the two-line record
`"%3d\n%s\n"`: the code in a minimum field width of 3 (space-padded, never
truncated), then the value's text form, each line closed by one newline —
so the output has exactly two newlines whenever the value's text form has
none. -/
theorem dxftag_dxfstr_format :
    (∀ t : DXFTag, t.dxfstr = fmtInt3 t.code ++ "\n" ++ pyStr t._value ++ "\n")
  ∧ (∀ n : Int, fmtInt3 n =
      String.mk (List.replicate (3 - (toString n).length) ' ') ++ toString n)
  ∧ (∀ n : Int, (fmtInt3 n).length = max 3 (toString n).length)
  ∧ (∀ n : Int, countNL (fmtInt3 n) = 0)
  ∧ (∀ t : DXFTag, countNL t.dxfstr = 2 + countNL (pyStr t._value)) := by
  have hf : ∀ n : Int, countNL (fmtInt3 n) = 0 := by
    intro n
    have h1 : '\n' ∉ (String.mk (List.replicate (3 - (toString n).length) ' ')).data := by
      simp [List.mem_replicate]
    have h2 : '\n' ∉ (toString n).data := fun h => intToString_ne_newline n _ h rfl
    simp only [countNL, fmtInt3, String.data_append]
    rw [List.count_append, List.count_eq_zero.mpr h1, List.count_eq_zero.mpr h2]
  refine ⟨fun _ => rfl, fun _ => rfl, ?_, hf, ?_⟩
  · intro n
    simp [fmtInt3, String.length_append]
    omega
  · intro t
    have h0 := hf t.code
    have hnl : ("\n" : String).data = ['\n'] := rfl
    simp only [countNL, DXFTag.dxfstr, tagRecord, String.data_append,
      List.count_append, hnl, List.count_cons, List.count_nil,
      beq_self_eq_true, if_true] at h0 ⊢
    omega

/-- Claim C5: a vertex tag of N components (N = 2 or 3) at base code c
serializes via `dxfstr` to exactly N consecutive two-line scalar records at
codes c, c+10, c+20 in that order; in particular the vertex built from
`(10, (1.0, 2.0, 3.0))` serializes to the three records at codes 10, 20, 30
with values 1.0, 2.0, 3.0. -/
theorem vertex_dxfstr_records :
    (∀ (c : Int) (a b : ℚ), (DXFVertex.mk c [a, b]).dxfstr =
        tagRecord c (formatFloat a) ++ tagRecord (c + 10) (formatFloat b))
  ∧ (∀ (c : Int) (a b d : ℚ), (DXFVertex.mk c [a, b, d]).dxfstr =
        tagRecord c (formatFloat a) ++ tagRecord (c + 10) (formatFloat b) ++
          tagRecord (c + 20) (formatFloat d))
  ∧ (DXFVertex.mk 10 [mkRat 1 1, mkRat 2 1, mkRat 3 1]).dxfstr =
        tagRecord 10 "1.0" ++ tagRecord 20 "2.0" ++ tagRecord 30 "3.0"
  ∧ (DXFVertex.mk 10 [mkRat 1 1, mkRat 2 1, mkRat 3 1]).dxfstr =
        " 10\n1.0\n 20\n2.0\n 30\n3.0\n" :=
  ⟨fun _ _ _ => rfl, fun _ _ _ _ => rfl, by decide, by decide⟩

/-! ### Upright transform lemmas -/

/-- `_flip_circle` as a single record update. -/
theorem flip_circle_eq (flip : Vec3 → Vec3) (dxf : DXFNamespace) :
    _flip_circle flip dxf = { dxf with
      center := flip dxf.center,
      thickness := dxf.thickness.map fun t => -t,
      extrusion := none } := rfl

/-- `_flip_arc` as a single record update. -/
theorem flip_arc_eq (flip : Vec3 → Vec3) (dxf : DXFNamespace) :
    _flip_arc flip dxf = { dxf with
      center := flip dxf.center,
      thickness := dxf.thickness.map fun t => -t,
      extrusion := none,
      start_angle := _flip_deg_angle dxf.end_angle,
      end_angle := _flip_deg_angle dxf.start_angle } := rfl

/-- `_flip_ellipse` as a single record update. -/
theorem flip_ellipse_eq (flip : Vec3 → Vec3) (dxf : DXFNamespace) :
    _flip_ellipse flip dxf = { dxf with
      start_param := -dxf.end_param,
      end_param := -dxf.start_param,
      extrusion := none } := rfl

/-- When the guard and detection pass and the dxftype has a simple tool,
`upright` rewrites the namespace with that tool. -/
theorem upright_simple_tool (flip : Vec3 → Vec3) (e : DXFEntity) (v : Vec3)
    (tool : (Vec3 → Vec3) → DXFNamespace → DXFNamespace)
    (hal : e.is_alive = true) (hgr : e.graphical = true)
    (hext : e.dxf.extrusion = some v) (hnorm : normalizesToFlippedZ v = true)
    (htool : SIMPLE_UPRIGHT_TOOLS e.dxftype = some tool) :
    upright flip e = { e with dxf := tool flip e.dxf } := by
  simp [upright, hal, hgr, hext, hnorm, htool]

/-- Every guard failure — dead entity, non-graphical entity, missing
extrusion, extrusion that does not normalize to the flipped axis, or a
dxftype with no truthy tool — makes `upright` the identity. -/
theorem upright_noop (flip : Vec3 → Vec3) (e : DXFEntity)
    (h : e.is_alive = false ∨ e.graphical = false ∨ e.dxf.extrusion = none ∨
      (∀ v, e.dxf.extrusion = some v → normalizesToFlippedZ v = false) ∨
      (SIMPLE_UPRIGHT_TOOLS e.dxftype = none ∧
        ∀ f, COMPLEX_UPRIGHT_TOOLS e.dxftype ≠ some (some f))) :
    upright flip e = e := by
  rcases h with h | h | h | h | ⟨hs, hc⟩
  · simp [upright, h]
  · simp [upright, h]
  · simp [upright, h]
  · cases hext : e.dxf.extrusion with
    | none => simp [upright, hext]
    | some v => simp [upright, hext, h v hext]
  · cases hext : e.dxf.extrusion with
    | none => simp [upright, hext]
    | some v =>
        cases hnorm : normalizesToFlippedZ v with
        | false => simp [upright, hext, hnorm]
        | true =>
            cases hcplx : COMPLEX_UPRIGHT_TOOLS e.dxftype with
            | none => simp [upright, hext, hnorm, hs, hcplx]
            | some o =>
                cases o with
                | none => simp [upright, hext, hnorm, hs, hcplx]
                | some f => exact absurd hcplx (hc f)

/-- The arc of the spec scenario: extrusion (0, 0, -1), start angle 30, end
angle 120, center (1, 1, 0), no thickness. -/
def arcSample : DXFEntity :=
  ⟨"ARC", true, true,
    ⟨some ⟨0, 0, -1⟩, ⟨1, 1, 0⟩, none, 30, 120, 0, 0,
      none, none, none, none⟩⟩

/-- A circle with flipped extrusion and a thickness attribute. -/
def circleSample : DXFEntity :=
  ⟨"CIRCLE", true, true,
    ⟨some ⟨0, 0, -1⟩, ⟨1, 2, 0⟩, some 3, 0, 0, 0, 0,
      none, none, none, none⟩⟩

/-- The ellipse of the spec scenario: extrusion (0, 0, -1), start parameter
0.5, end parameter 2.0. -/
def ellipseSample : DXFEntity :=
  ⟨"ELLIPSE", true, true,
    ⟨some ⟨0, 0, -1⟩, ⟨0, 0, 0⟩, none, 0, 0, mkRat 1 2, 2,
      none, none, none, none⟩⟩

/-- A lightweight polyline with flipped extrusion. -/
def lwpolylineSample : DXFEntity :=
  ⟨"LWPOLYLINE", true, true,
    ⟨some ⟨0, 0, -1⟩, ⟨0, 0, 0⟩, none, 0, 0, 0, 0, none, none, none, none⟩⟩

unseal Rat.sub in
/-- Reflecting 30 degrees gives 150 degrees. -/
theorem flip_deg_angle_30 : _flip_deg_angle (30 : ℚ) = 150 := by decide

unseal Rat.sub in
/-- Reflecting 120 degrees gives 60 degrees. -/
theorem flip_deg_angle_120 : _flip_deg_angle (120 : ℚ) = 60 := by decide

/-- Claim C2: for every alive, graphical arc whose extrusion normalizes to
(0, 0, -1), `upright` sets new end angle = flip of old start angle and new
start angle = flip of old end angle — where flip θ = 180 - θ for θ ≥ 0 and
-180 - θ for θ < 0 — flips the center through the flipped-OCS-to-WCS
conversion, negates the thickness if present, and removes the extrusion
attribute; in particular start 30 / end 120 becomes start 60 / end 150. -/
theorem upright_arc :
    (∀ (flip : Vec3 → Vec3) (e : DXFEntity) (v : Vec3),
      e.dxftype = "ARC" → e.is_alive = true → e.graphical = true →
      e.dxf.extrusion = some v → normalizesToFlippedZ v = true →
      upright flip e = { e with dxf := { e.dxf with
        center := flip e.dxf.center,
        thickness := e.dxf.thickness.map fun t => -t,
        extrusion := none,
        start_angle := _flip_deg_angle e.dxf.end_angle,
        end_angle := _flip_deg_angle e.dxf.start_angle } })
  ∧ (∀ q : ℚ, _flip_deg_angle q =
      (if 0 ≤ q then mkRat 180 1 else mkRat (-180) 1) - q)
  ∧ (∀ flip : Vec3 → Vec3, upright flip arcSample =
      { arcSample with dxf := { arcSample.dxf with
          center := flip ⟨1, 1, 0⟩, extrusion := none,
          start_angle := (60 : ℚ), end_angle := (150 : ℚ) } }) := by
  have hgen : ∀ (flip : Vec3 → Vec3) (e : DXFEntity) (v : Vec3),
      e.dxftype = "ARC" → e.is_alive = true → e.graphical = true →
      e.dxf.extrusion = some v → normalizesToFlippedZ v = true →
      upright flip e = { e with dxf := { e.dxf with
        center := flip e.dxf.center,
        thickness := e.dxf.thickness.map fun t => -t,
        extrusion := none,
        start_angle := _flip_deg_angle e.dxf.end_angle,
        end_angle := _flip_deg_angle e.dxf.start_angle } } := by
    intro flip e v hty hal hgr hext hnorm
    rw [upright_simple_tool flip e v _flip_arc hal hgr hext hnorm (by rw [hty]; rfl),
      flip_arc_eq]
  refine ⟨hgen, fun _ => rfl, ?_⟩
  intro flip
  rw [hgen flip arcSample ⟨0, 0, -1⟩ rfl rfl rfl rfl (by decide)]
  simp [arcSample, flip_deg_angle_120, flip_deg_angle_30]

/-- Witness for C2: the spec's arc scenario, with the identity as the
external OCS-to-WCS conversion. -/
theorem upright_arc_witness :
    upright id arcSample = { arcSample with dxf := { arcSample.dxf with
      center := id ⟨1, 1, 0⟩, extrusion := none,
      start_angle := _flip_deg_angle (120 : ℚ),
      end_angle := _flip_deg_angle (30 : ℚ) } } :=
  upright_arc.1 id arcSample ⟨0, 0, -1⟩ rfl rfl rfl rfl (by decide)

/-- Claim C4: every guard failure — entity not alive, not graphical, no
extrusion attribute, extrusion not normalizing to (0, 0, -1), or a dxftype
with no registered tool — leaves the entity unchanged, with no error; in
particular an arc with the canonical extrusion (0, 0, 1) is unchanged. -/
theorem upright_guard_failures :
    (∀ (flip : Vec3 → Vec3) (e : DXFEntity),
      (e.is_alive = false ∨ e.graphical = false ∨ e.dxf.extrusion = none ∨
        (∀ v, e.dxf.extrusion = some v → normalizesToFlippedZ v = false) ∨
        (SIMPLE_UPRIGHT_TOOLS e.dxftype = none ∧
          ∀ f, COMPLEX_UPRIGHT_TOOLS e.dxftype ≠ some (some f))) →
      upright flip e = e)
  ∧ (∀ (flip : Vec3 → Vec3) (e : DXFEntity),
      e.dxftype = "ARC" → e.dxf.extrusion = some ⟨0, 0, 1⟩ →
      upright flip e = e) := by
  refine ⟨upright_noop, ?_⟩
  intro flip e _ hext
  refine upright_noop flip e (Or.inr (Or.inr (Or.inr (Or.inl ?_))))
  intro v hv
  rw [hext] at hv
  cases hv
  decide

/-- Witness for C4: a dead arc is untouched, and an arc with canonical
extrusion (0, 0, 1) is untouched. -/
theorem upright_guard_failures_witness :
    upright id ⟨"ARC", false, true, arcSample.dxf⟩ = ⟨"ARC", false, true, arcSample.dxf⟩
  ∧ upright id ⟨"ARC", true, true, { arcSample.dxf with extrusion := some ⟨0, 0, 1⟩ }⟩ =
      ⟨"ARC", true, true, { arcSample.dxf with extrusion := some ⟨0, 0, 1⟩ }⟩ :=
  ⟨upright_guard_failures.1 id ⟨"ARC", false, true, arcSample.dxf⟩ (Or.inl rfl),
   upright_guard_failures.2 id _ rfl rfl⟩

/-- Claim C6: on an alive, graphical circle whose extrusion normalizes to
(0, 0, -1), `upright` is idempotent: the first application removes the
extrusion attribute, so the guard rejects the second call as a no-op. -/
theorem upright_circle_idempotent :
    ∀ (flip : Vec3 → Vec3) (e : DXFEntity) (v : Vec3),
      e.dxftype = "CIRCLE" → e.is_alive = true → e.graphical = true →
      e.dxf.extrusion = some v → normalizesToFlippedZ v = true →
      (upright flip e).dxf.extrusion = none ∧
      upright flip (upright flip e) = upright flip e := by
  intro flip e v hty hal hgr hext hnorm
  have h1 : upright flip e = { e with dxf := _flip_circle flip e.dxf } :=
    upright_simple_tool flip e v _flip_circle hal hgr hext hnorm (by rw [hty]; rfl)
  have h2 : (upright flip e).dxf.extrusion = none := by rw [h1]; rfl
  exact ⟨h2, upright_noop flip _ (Or.inr (Or.inr (Or.inl h2)))⟩

/-- Witness for C6: a concrete circle with extrusion (0, 0, -1). -/
theorem upright_circle_idempotent_witness :
    (upright id circleSample).dxf.extrusion = none ∧
    upright id (upright id circleSample) = upright id circleSample :=
  upright_circle_idempotent id circleSample ⟨0, 0, -1⟩ rfl rfl rfl rfl (by decide)

/-- Claim C7: for every ellipse passing the guard with extrusion normalizing
to (0, 0, -1), `upright` sets new end parameter = -(old start parameter) and
new start parameter = -(old end parameter), removes the extrusion attribute,
and changes nothing else (no center flip, no thickness change); in
particular start 0.5 / end 2.0 becomes start -2.0 / end -0.5. -/
theorem upright_ellipse :
    (∀ (flip : Vec3 → Vec3) (e : DXFEntity) (v : Vec3),
      e.dxftype = "ELLIPSE" → e.is_alive = true → e.graphical = true →
      e.dxf.extrusion = some v → normalizesToFlippedZ v = true →
      upright flip e = { e with dxf := { e.dxf with
        start_param := -e.dxf.end_param,
        end_param := -e.dxf.start_param,
        extrusion := none } })
  ∧ (∀ flip : Vec3 → Vec3, upright flip ellipseSample =
      { ellipseSample with dxf := { ellipseSample.dxf with
          start_param := (-2 : ℚ), end_param := mkRat (-1) 2,
          extrusion := none } }) := by
  have hgen : ∀ (flip : Vec3 → Vec3) (e : DXFEntity) (v : Vec3),
      e.dxftype = "ELLIPSE" → e.is_alive = true → e.graphical = true →
      e.dxf.extrusion = some v → normalizesToFlippedZ v = true →
      upright flip e = { e with dxf := { e.dxf with
        start_param := -e.dxf.end_param,
        end_param := -e.dxf.start_param,
        extrusion := none } } := by
    intro flip e v hty hal hgr hext hnorm
    rw [upright_simple_tool flip e v _flip_ellipse hal hgr hext hnorm (by rw [hty]; rfl),
      flip_ellipse_eq]
  refine ⟨hgen, ?_⟩
  intro flip
  rw [hgen flip ellipseSample ⟨0, 0, -1⟩ rfl rfl rfl rfl (by decide)]
  simp [ellipseSample]
  decide

/-- Witness for C7: the spec's ellipse scenario. -/
theorem upright_ellipse_witness :
    upright id ellipseSample = { ellipseSample with dxf := { ellipseSample.dxf with
      start_param := -(2 : ℚ), end_param := -(mkRat 1 2),
      extrusion := none } } :=
  upright_ellipse.1 id ellipseSample ⟨0, 0, -1⟩ rfl rfl rfl rfl (by decide)

/-- Claim C10: for every entity of kind LWPOLYLINE, POLYLINE, HATCH,
MPOLYGON or INSERT passing the guard with extrusion normalizing to
(0, 0, -1), the transform performs no rewrite: every attribute is left
unchanged, and in particular the extrusion attribute is not removed, so a
repeated call takes the same path again. -/
theorem upright_complex_placeholder :
    ∀ (flip : Vec3 → Vec3) (e : DXFEntity) (v : Vec3),
      (e.dxftype = "LWPOLYLINE" ∨ e.dxftype = "POLYLINE" ∨ e.dxftype = "HATCH" ∨
        e.dxftype = "MPOLYGON" ∨ e.dxftype = "INSERT") →
      e.is_alive = true → e.graphical = true →
      e.dxf.extrusion = some v → normalizesToFlippedZ v = true →
      upright flip e = e ∧ (upright flip e).dxf.extrusion = some v := by
  intro flip e v hty hal hgr hext hnorm
  have h : upright flip e = e := by
    rcases hty with h | h | h | h | h <;>
      simp [upright, hal, hgr, hext, hnorm, h, SIMPLE_UPRIGHT_TOOLS,
        COMPLEX_UPRIGHT_TOOLS, _flip_complex_entity]
  exact ⟨h, by rw [h, hext]⟩

/-- Witness for C10: a concrete LWPOLYLINE with flipped extrusion keeps all
attributes, extrusion included. -/
theorem upright_complex_placeholder_witness :
    upright id lwpolylineSample = lwpolylineSample ∧
    (upright id lwpolylineSample).dxf.extrusion = some ⟨0, 0, -1⟩ :=
  upright_complex_placeholder id lwpolylineSample ⟨0, 0, -1⟩ (Or.inl rfl)
    rfl rfl rfl (by decide)

end Ezdxf
